import Mathlib

/-!
# Verification of the IQL agent and value critic

A shallow embedding of the numeric update rules of `IQLAgent`
(hw5/cs285/agents/iql_agent.py) and `ValueCritic`
(hw2/cs285/networks/critics.py).

Conventions of the embedding:
* tensors of shape `[batch]` become `List ℚ`; elementwise tensor ops become
  `List.zip`/`List.map`; `.mean()` becomes `tmean` (sum divided by length);
* network parameters become abstract types; a network's forward pass becomes
  an abstract function of its parameters; gradient-descent steps become
  abstract functions of exactly the state the source code reads;
* tensor shapes become `List ℕ`, with `squeeze` and broadcasting embedded
  after the tensor library's documented semantics;
* floats become `ℚ` (exact arithmetic; NaN/overflow are out of scope).
-/

/-- Mean of a list of rationals, as `tensor.mean()`: sum divided by length. -/
def tmean (l : List ℚ) : ℚ := l.sum / l.length

/-- Source `IQLAgent.iql_expectile_loss(expectile, vs, target_qs)`:
`diff = vs - target_qs`;
`weight = torch.where(diff > 0, 1 - expectile, expectile)`;
`loss = weight * torch.square(diff)`; return `loss.mean()`.
Elementwise tensor ops are mapped over the zipped lists. -/
def iql_expectile_loss (expectile : ℚ) (vs target_qs : List ℚ) : ℚ :=
  let diff := (vs.zip target_qs).map fun p => p.1 - p.2
  let weight := diff.map fun d => if d > 0 then 1 - expectile else expectile
  let loss := (weight.zip diff).map fun p => p.1 * p.2 ^ 2
  tmean loss

/-- The asymmetric weight as the spec states it: `1 - τ` when `diff > 0`,
else `τ`. -/
def expectileWeight (τ d : ℚ) : ℚ := if d > 0 then 1 - τ else τ

/-- The same weight with the tie `diff = 0` resolved to the other branch
(`1 - τ` at zero). -/
def expectileWeightAlt (τ d : ℚ) : ℚ := if d ≥ 0 then 1 - τ else τ

/-- Plain mean squared error between two equally long lists. -/
def mse (vs target_qs : List ℚ) : ℚ :=
  tmean ((vs.zip target_qs).map fun p => (p.1 - p.2) ^ 2)

/-- The regression target computed in `IQLAgent.update_q` for one transition:
`rewards + self.discount * (1 - dones.int()) * self.target_value_critic(next_observations)`,
with `dones` a 0/1 flag cast to an integer and the target value critic's
output at the next observation abstracted to a rational `vnext`. -/
def update_q_target (discount reward : ℚ) (done : Bool) (vnext : ℚ) : ℚ :=
  reward + discount * (1 - (if done then 1 else 0)) * vnext

/-- Source `torch.gather(qa_values, -1, index)` at one batch row: select the entry of
the per-action value vector at the (integer-cast) action index. -/
def gather1 (qa_values : List ℚ) (action : ℕ) : ℚ := qa_values.getD action 0

/-- Source `IQLAgent.compute_advantage`:
`qa_values = self.critic(observations)`;
`q_values = torch.gather(qa_values, -1, torch.unsqueeze(actions.long(), 1))`;
`advantages = q_values - self.value_critic(observations)`.
The Q-critic is an abstract function from an observation to its per-action
values. Modelled from the spec: the network built by `make_value_critic`
(the hw5 state-value critic) is not part of the sources; per spec §3/§4.3
(`V(s)` maps an observation to a scalar, the advantage is `[batch]`-compatible)
it is an abstract function from an observation to one rational. -/
def compute_advantage {Obs : Type} (critic : Obs → List ℚ) (value_critic : Obs → ℚ)
    (observations : List Obs) (actions : List ℕ) : List ℚ :=
  (observations.zip actions).map fun p => gather1 (critic p.1) p.2 - value_critic p.1

lemma zip_map_same {α : Type} (l : List α) (f g : α → ℚ) :
    (l.map f).zip (l.map g) = l.map fun a => (f a, g a) := by
  induction l with
  | nil => rfl
  | cons a l ih => simp [ih]

lemma sum_map_zip_getD (F : ℚ × ℚ → ℚ) :
    ∀ vs qs : List ℚ, ((vs.zip qs).map F).sum
      = ∑ i ∈ Finset.range (min vs.length qs.length), F (vs.getD i 0, qs.getD i 0) := by
  intro vs
  induction vs with
  | nil => intro qs; simp
  | cons a vs ih =>
    intro qs
    cases qs with
    | nil => simp
    | cons b qs =>
      simp only [List.zip_cons_cons, List.map_cons, List.sum_cons, List.length_cons,
        Nat.succ_min_succ, Finset.sum_range_succ']
      simp [List.getD_cons_succ, List.getD_cons_zero, ih qs, add_comm]

lemma getD_map_zip {α β : Type} (F : α × β → ℚ) (a₀ : α) (b₀ : β) :
    ∀ (l : List α) (m : List β) (i : ℕ), i < l.length → i < m.length →
      ((l.zip m).map F).getD i 0 = F (l.getD i a₀, m.getD i b₀) := by
  intro l
  induction l with
  | nil => intro m i hi _; simp at hi
  | cons a l ih =>
    intro m i hi hm
    cases m with
    | nil => simp at hm
    | cons b m =>
      cases i with
      | zero => simp
      | succ j =>
        simp only [List.zip_cons_cons, List.map_cons, List.getD_cons_succ,
          List.length_cons] at *
        exact ih m j (by omega) (by omega)

lemma iql_expectile_loss_eq_map (τ : ℚ) (vs qs : List ℚ) :
    iql_expectile_loss τ vs qs
      = tmean ((vs.zip qs).map fun p =>
          expectileWeight τ (p.1 - p.2) * (p.1 - p.2) ^ 2) := by
  simp only [iql_expectile_loss, List.map_map, zip_map_same]
  rfl

lemma tmean_map_zip (F : ℚ × ℚ → ℚ) (vs qs : List ℚ) (h : vs.length = qs.length) :
    tmean ((vs.zip qs).map F)
      = (∑ i ∈ Finset.range vs.length, F (vs.getD i 0, qs.getD i 0)) / vs.length := by
  unfold tmean
  rw [sum_map_zip_getD]
  simp [← h]

lemma expectileWeight_mul_sq (τ d : ℚ) :
    expectileWeight τ d * d ^ 2 = expectileWeightAlt τ d * d ^ 2 := by
  unfold expectileWeight expectileWeightAlt
  rcases lt_trichotomy d 0 with hd | hd | hd
  · rw [if_neg (by linarith), if_neg (by linarith)]
  · subst hd; simp
  · rw [if_pos hd, if_pos (le_of_lt hd)]

example : iql_expectile_loss (7/10) [1, 0] [0, 0] = 3/20 := by
  simp [iql_expectile_loss, tmean]
  norm_num

example : update_q_target (99/100) 5 true 7 = 5 := by
  simp [update_q_target]

example : compute_advantage (fun o : ℕ => [(o : ℚ) + 100, (o : ℚ) + 200])
    (fun o : ℕ => (o : ℚ)) [5, 7] [1, 0] = [200, 100] := by
  simp [compute_advantage, gather1]

lemma sum_map_mul_const {α : Type} (l : List α) (f : α → ℚ) (c : ℚ) :
    (l.map fun x => c * f x).sum = c * (l.map f).sum := by
  induction l with
  | nil => simp
  | cons a l ih => simp [ih, mul_add]

/-- C1: for every expectile `τ` and equally long `vs`, `target_qs`,
`iql_expectile_loss τ vs target_qs` is the mean over all entries of
`w_i * (vs_i - target_qs_i)^2` with `w_i = 1 - τ` when the difference is
positive and `w_i = τ` otherwise; and the value is unchanged when entries
with difference exactly `0` are given the other branch's weight. -/
theorem iql_expectile_loss_spec (τ : ℚ) (vs target_qs : List ℚ)
    (h : vs.length = target_qs.length) :
    iql_expectile_loss τ vs target_qs
      = (∑ i ∈ Finset.range vs.length,
          expectileWeight τ (vs.getD i 0 - target_qs.getD i 0)
            * (vs.getD i 0 - target_qs.getD i 0) ^ 2) / vs.length
    ∧ iql_expectile_loss τ vs target_qs
      = (∑ i ∈ Finset.range vs.length,
          expectileWeightAlt τ (vs.getD i 0 - target_qs.getD i 0)
            * (vs.getD i 0 - target_qs.getD i 0) ^ 2) / vs.length := by
  constructor
  · rw [iql_expectile_loss_eq_map, tmean_map_zip _ _ _ h]
  · rw [iql_expectile_loss_eq_map, tmean_map_zip _ _ _ h]
    congr 1
    exact Finset.sum_congr rfl fun i _ => expectileWeight_mul_sq τ _

theorem iql_expectile_loss_spec_witness :
    ([1, 0] : List ℚ).length = ([0, 0] : List ℚ).length
    ∧ (iql_expectile_loss (7/10) [1, 0] [0, 0]
        = (∑ i ∈ Finset.range ([1, 0] : List ℚ).length,
            expectileWeight (7/10)
                (([1, 0] : List ℚ).getD i 0 - ([0, 0] : List ℚ).getD i 0)
              * (([1, 0] : List ℚ).getD i 0 - ([0, 0] : List ℚ).getD i 0) ^ 2)
            / ([1, 0] : List ℚ).length
      ∧ iql_expectile_loss (7/10) [1, 0] [0, 0]
        = (∑ i ∈ Finset.range ([1, 0] : List ℚ).length,
            expectileWeightAlt (7/10)
                (([1, 0] : List ℚ).getD i 0 - ([0, 0] : List ℚ).getD i 0)
              * (([1, 0] : List ℚ).getD i 0 - ([0, 0] : List ℚ).getD i 0) ^ 2)
            / ([1, 0] : List ℚ).length) :=
  ⟨rfl, iql_expectile_loss_spec (7/10) [1, 0] [0, 0] rfl⟩

/-- C5: at expectile `1/2` the loss is exactly half the mean squared error:
the weight is the constant `1/2` on both branches. -/
theorem iql_expectile_loss_half_is_half_mse (vs target_qs : List ℚ)
    (h : vs.length = target_qs.length) :
    iql_expectile_loss (1/2) vs target_qs = 1/2 * mse vs target_qs := by
  rw [iql_expectile_loss_eq_map]
  unfold mse tmean
  have hw : ∀ p : ℚ × ℚ,
      expectileWeight (1/2) (p.1 - p.2) * (p.1 - p.2) ^ 2
        = 1/2 * (p.1 - p.2) ^ 2 := by
    intro p
    unfold expectileWeight
    split <;> norm_num
  simp only [hw]
  rw [sum_map_mul_const, mul_div_assoc]
  simp

theorem iql_expectile_loss_half_is_half_mse_witness :
    ([2, 0] : List ℚ).length = ([0, 0] : List ℚ).length
    ∧ iql_expectile_loss (1/2) [2, 0] [0, 0] = 1/2 * mse [2, 0] [0, 0] :=
  ⟨rfl, iql_expectile_loss_half_is_half_mse [2, 0] [0, 0] rfl⟩

/-- C2: the `update_q` regression target is
`reward + discount * (1 - done) * target_value_critic(next_obs)`: for a
terminal transition (`done = 1`) it equals the reward, independent of the
target value critic's output at the next observation; for `done = 0` the
full discounted bootstrap term is added. -/
theorem update_q_target_spec (discount reward : ℚ) :
    (∀ vnext : ℚ, update_q_target discount reward true vnext = reward)
    ∧ ∀ vnext : ℚ,
        update_q_target discount reward false vnext = reward + discount * vnext := by
  constructor <;> intro v <;> simp [update_q_target]

/-- C3: `compute_advantage` returns one entry per transition, and the `i`-th
entry is the live Q-critic's value for observation `i` gathered at the taken
action index `actions[i]`, minus the live value critic's output at
observation `i`. -/
theorem compute_advantage_spec {Obs : Type} (o₀ : Obs) (critic : Obs → List ℚ)
    (value_critic : Obs → ℚ) (observations : List Obs) (actions : List ℕ)
    (h : observations.length = actions.length) :
    (compute_advantage critic value_critic observations actions).length
        = observations.length
    ∧ ∀ i < observations.length,
        (compute_advantage critic value_critic observations actions).getD i 0
          = gather1 (critic (observations.getD i o₀)) (actions.getD i 0)
              - value_critic (observations.getD i o₀) := by
  constructor
  · simp [compute_advantage, ← h]
  · intro i hi
    unfold compute_advantage
    rw [getD_map_zip _ o₀ 0 observations actions i hi (h ▸ hi)]

theorem compute_advantage_spec_witness :
    ([5, 7] : List ℕ).length = ([1, 0] : List ℕ).length
    ∧ ((compute_advantage (fun o : ℕ => [(o : ℚ) + 100, (o : ℚ) + 200])
          (fun o : ℕ => (o : ℚ)) [5, 7] [1, 0]).length = ([5, 7] : List ℕ).length
      ∧ ∀ i < ([5, 7] : List ℕ).length,
          (compute_advantage (fun o : ℕ => [(o : ℚ) + 100, (o : ℚ) + 200])
              (fun o : ℕ => (o : ℚ)) [5, 7] [1, 0]).getD i 0
            = gather1 ((fun o : ℕ => [(o : ℚ) + 100, (o : ℚ) + 200])
                  (([5, 7] : List ℕ).getD i 0)) (([1, 0] : List ℕ).getD i 0)
                - (fun o : ℕ => (o : ℚ)) (([5, 7] : List ℕ).getD i 0)) :=
  ⟨rfl, compute_advantage_spec 0 _ _ [5, 7] [1, 0] rfl⟩

/-! ## Agent state and the full update step

The four networks' parameter-and-optimizer records are abstract types: `Θ`
for the Q-networks, `Φ` for the value networks, `A` for the actor; `B` is a
sampled transition batch, `M` a metrics mapping.  A gradient-descent step is
an abstract function of exactly the state the source update reads. -/

structure IQLState (Θ Φ A : Type) where
  critic : Θ
  target_critic : Θ
  value_critic : Φ
  target_value_critic : Φ
  actor : A

/-- Source `IQLAgent.update_q`: the loss is built from the live Q-critic
(`self.critic(observations)`), the target value critic
(`self.target_value_critic(next_observations)`) and the batch, and the
optimizer step writes only the live Q-critic.  `gq` is the resulting new
Q-critic record, `mq` the returned metrics (computed from the pre-step
parameters). -/
def update_q {Θ Φ A B M : Type} (gq : Θ → Φ → B → Θ) (mq : Θ → Φ → B → M)
    (b : B) (s : IQLState Θ Φ A) : IQLState Θ Φ A × M :=
  ({ s with critic := gq s.critic s.target_value_critic b },
   mq s.critic s.target_value_critic b)

/-- Source `IQLAgent.update_v`: the loss is built from the target Q-critic
(`self.target_critic(observations)`), the live value critic
(`self.value_critic(observations)`) and the batch, and the optimizer step
writes only the live value critic. -/
def update_v {Θ Φ A B M : Type} (gv : Φ → Θ → B → Φ) (mv : Φ → Θ → B → M)
    (b : B) (s : IQLState Θ Φ A) : IQLState Θ Φ A × M :=
  ({ s with value_critic := gv s.value_critic s.target_critic b },
   mv s.value_critic s.target_critic b)

/-- Source `IQLAgent.update_critic`: `update_q` then `update_v` on the same
batch, the two metrics mappings merged (their key sets are disjoint, so the
merge is modelled as a pair). -/
def update_critic {Θ Φ A B M : Type} (gq : Θ → Φ → B → Θ) (mq : Θ → Φ → B → M)
    (gv : Φ → Θ → B → Φ) (mv : Φ → Θ → B → M) (b : B)
    (s : IQLState Θ Φ A) : IQLState Θ Φ A × (M × M) :=
  let rq := update_q gq mq b s
  let rv := update_v gv mv b rq.1
  (rv.1, (rq.2, rv.2))

/-- Modelled from the spec: `update_target_critic` is inherited from the
external base agent and its body is absent from the sources; per spec §3 and
§4.8 it overwrites the target Q-critic's parameters with a full copy of the
live Q-critic's. -/
def update_target_critic {Θ Φ A : Type} (s : IQLState Θ Φ A) : IQLState Θ Φ A :=
  { s with target_critic := s.critic }

/-- Source `IQLAgent.update_target_value_critic`:
`self.target_value_critic.load_state_dict(self.value_critic.state_dict())` —
a full copy of the live value critic's parameters into the target. -/
def update_target_value_critic {Θ Φ A : Type} (s : IQLState Θ Φ A) :
    IQLState Θ Φ A :=
  { s with target_value_critic := s.value_critic }

/-- Source `IQLAgent.update`: `update_critic`, then the actor step
(`self.update_actor(observations, actions)` reads the actor and — through
`compute_advantage` — the live Q-critic and live value critic), then, exactly
when `step % self.target_update_period == 0`, both target syncs. -/
def IQL_update {Θ Φ A B M : Type} (gq : Θ → Φ → B → Θ) (mq : Θ → Φ → B → M)
    (gv : Φ → Θ → B → Φ) (mv : Φ → Θ → B → M) (ga : A → Θ → Φ → B → A)
    (target_update_period : ℕ) (b : B) (s : IQLState Θ Φ A) (step : ℕ) :
    IQLState Θ Φ A × (M × M) :=
  let rc := update_critic gq mq gv mv b s
  let s1 := { rc.1 with actor := ga rc.1.actor rc.1.critic rc.1.value_critic b }
  if step % target_update_period = 0 then
    (update_target_value_critic (update_target_critic s1), rc.2)
  else (s1, rc.2)

/-- C7: `update_q` followed by `update_v` (the order `update_critic` uses)
produces the same final parameters of all four networks and the same
per-call metric values as `update_v` followed by `update_q`: the Q-step
reads the target value critic and writes the live Q-critic, the V-step reads
the target Q-critic and writes the live value critic, so the two act on
disjoint state. -/
theorem update_critic_order_independent {Θ Φ A B M : Type}
    (gq : Θ → Φ → B → Θ) (mq : Θ → Φ → B → M)
    (gv : Φ → Θ → B → Φ) (mv : Φ → Θ → B → M) (b : B) (s : IQLState Θ Φ A) :
    update_critic gq mq gv mv b s
      = ((update_q gq mq b (update_v gv mv b s).1).1,
         ((update_q gq mq b (update_v gv mv b s).1).2,
          (update_v gv mv b s).2)) := by
  cases s
  rfl

/-- C4: a call to `IQLAgent.update` synchronizes both target networks with a
full copy of the corresponding (post-update) live network's parameters
exactly when `step % target_update_period = 0` (in particular `step = 0`
syncs immediately); on every other call neither target network changes. -/
theorem IQL_update_target_sync {Θ Φ A B M : Type}
    (gq : Θ → Φ → B → Θ) (mq : Θ → Φ → B → M)
    (gv : Φ → Θ → B → Φ) (mv : Φ → Θ → B → M) (ga : A → Θ → Φ → B → A)
    (period : ℕ) (b : B) (s : IQLState Θ Φ A) (step : ℕ)
    (hperiod : 0 < period) :
    ((step % period = 0 →
        (IQL_update gq mq gv mv ga period b s step).1.target_critic
            = (IQL_update gq mq gv mv ga period b s step).1.critic
        ∧ (IQL_update gq mq gv mv ga period b s step).1.target_value_critic
            = (IQL_update gq mq gv mv ga period b s step).1.value_critic)
     ∧ (step % period ≠ 0 →
        (IQL_update gq mq gv mv ga period b s step).1.target_critic
            = s.target_critic
        ∧ (IQL_update gq mq gv mv ga period b s step).1.target_value_critic
            = s.target_value_critic)) := by
  constructor
  · intro h
    simp [IQL_update, update_target_critic, update_target_value_critic, if_pos h]
  · intro h
    simp [IQL_update, update_critic, update_q, update_v, if_neg h]

def wstate : IQLState ℕ ℕ ℕ := ⟨1, 2, 3, 4, 5⟩

def wgq : ℕ → ℕ → ℕ → ℕ := fun q v b => q + 10 * v + b

def wmq : ℕ → ℕ → ℕ → ℕ := fun q v b => q + v + b

def wgv : ℕ → ℕ → ℕ → ℕ := fun v q b => v + 100 * q + b

def wmv : ℕ → ℕ → ℕ → ℕ := fun v q b => v * q + b

def wga : ℕ → ℕ → ℕ → ℕ → ℕ := fun a q v b => a + q + v + b

theorem IQL_update_target_sync_witness :
    0 < 2
    ∧ ((1 % 2 = 0 →
          (IQL_update wgq wmq wgv wmv wga 2 0 wstate 1).1.target_critic
              = (IQL_update wgq wmq wgv wmv wga 2 0 wstate 1).1.critic
          ∧ (IQL_update wgq wmq wgv wmv wga 2 0 wstate 1).1.target_value_critic
              = (IQL_update wgq wmq wgv wmv wga 2 0 wstate 1).1.value_critic)
       ∧ (1 % 2 ≠ 0 →
          (IQL_update wgq wmq wgv wmv wga 2 0 wstate 1).1.target_critic
              = wstate.target_critic
          ∧ (IQL_update wgq wmq wgv wmv wga 2 0 wstate 1).1.target_value_critic
              = wstate.target_value_critic)) :=
  ⟨by decide, IQL_update_target_sync wgq wmq wgv wmv wga 2 0 wstate 1 (by decide)⟩

/-- Source `IQLAgent.__init__`'s value-network construction:
`make_value_critic` is called twice, producing the parameter records `φ₁`
(for `value_critic`) and `φ₂` (for `target_value_critic`);
`load_state_dict` then overwrites the target's parameters with a copy of the
live network's, so the fresh `φ₂` is discarded.  The two records are
separately stored values — `load_state_dict` copies tensor data, it does not
alias the two modules. -/
def iql_init_value_nets {Φ : Type} (φ₁ φ₂ : Φ) : Φ × Φ :=
  let value_critic := φ₁
  let _target_value_critic := φ₂
  (value_critic, value_critic)

/-- A later gradient update to the live value critic touches only the first
component of the (live, target) pair. -/
def set_value_critic {Φ : Type} (p : Φ × Φ) (φ : Φ) : Φ × Φ := (φ, p.2)

/-- C6: immediately after construction the target value critic's parameters
equal the value critic's, hence the two networks (any forward semantics
`net`) agree on every input; and the storage is independent: any later
overwrite of the live value critic leaves the target unchanged. -/
theorem iql_init_target_value_copy {Φ Obs : Type} (net : Φ → Obs → ℚ)
    (φ₁ φ₂ : Φ) :
    (iql_init_value_nets φ₁ φ₂).2 = (iql_init_value_nets φ₁ φ₂).1
    ∧ (∀ x : Obs, net (iql_init_value_nets φ₁ φ₂).2 x
        = net (iql_init_value_nets φ₁ φ₂).1 x)
    ∧ ∀ φ' : Φ, (set_value_critic (iql_init_value_nets φ₁ φ₂) φ').2
        = (iql_init_value_nets φ₁ φ₂).2 :=
  ⟨rfl, fun _ => rfl, fun _ => rfl⟩

/-! ## Tensor shapes: `squeeze` and broadcasting -/

/-- Source `tensor.squeeze()` with no argument: removes every dimension of
size 1 from the shape. -/
def squeezeAll (shape : List ℕ) : List ℕ := shape.filter fun d => d != 1

/-- Shape of `self.network(obs)` for the MLP built by `ptu.build_mlp` with
`output_size=1`: affine layers act on the last dimension, so the output
shape is the input shape with its last dimension replaced by 1. -/
def mlp1_out_shape (obs_shape : List ℕ) : List ℕ := obs_shape.dropLast ++ [1]

/-- Shape of `ValueCritic.forward(obs) = self.network(obs).squeeze()`. -/
def valueCritic_forward_shape (obs_shape : List ℕ) : List ℕ :=
  squeezeAll (mlp1_out_shape obs_shape)

/-- Broadcasting of two aligned dimensions: they must be equal or one of
them must be 1. -/
def broadcastDim (a b : ℕ) : Option ℕ :=
  if a = b then some a else if a = 1 then some b else if b = 1 then some a else none

/-- Broadcasting on reversed (right-aligned) shapes; a missing dimension on
either side is treated as 1. -/
def broadcastRev : List ℕ → List ℕ → Option (List ℕ)
  | [], t => some t
  | s, [] => some s
  | a :: s, b :: t => do
      let d ← broadcastDim a b
      let r ← broadcastRev s t
      pure (d :: r)

/-- Source-library broadcasting of two tensor shapes: align right, missing
dimensions count as 1, aligned dimensions must be equal or one of them 1;
`none` is a shape-mismatch error. -/
def broadcastShapes (s t : List ℕ) : Option (List ℕ) :=
  (broadcastRev s.reverse t.reverse).map List.reverse

/-- Shape of the loss computed by `ValueCritic.update`:
`torch.square(self(obs) - q_values).mean()`.  The subtraction broadcasts
`forward(obs)`'s shape with `q_values`' shape (a shape-mismatch error —
`none` — exactly when they are not broadcast-compatible), `square` preserves
the shape, and `.mean()` reduces to a scalar of shape `[]`. -/
def valueCritic_update_loss_shape (obs_shape q_shape : List ℕ) :
    Option (List ℕ) :=
  (broadcastShapes (valueCritic_forward_shape obs_shape) q_shape).map fun _ => []

lemma broadcastRev_self : ∀ s : List ℕ, broadcastRev s s = some s := by
  intro s
  induction s with
  | nil => rfl
  | cons a s ih => simp [broadcastRev, broadcastDim, ih]

/-- C8 counterexample: with a batch of 2 observations (shape `[2, 3]`),
`forward(obs)` has shape `[2]`; a `q_values` of shape `[2, 1]` does not
match it, yet `update` raises no error — the subtraction silently
broadcasts `[2] - [2, 1]` to `[2, 2]` and the loss is computed. -/
theorem valueCritic_update_silent_broadcast :
    valueCritic_forward_shape [2, 3] = [2]
    ∧ ([2] : List ℕ) ≠ [2, 1]
    ∧ broadcastShapes (valueCritic_forward_shape [2, 3]) [2, 1] = some [2, 2]
    ∧ valueCritic_update_loss_shape [2, 3] [2, 1] = some [] := by
  refine ⟨by decide, by decide, by decide, by decide⟩

/-- C8 (amended): `ValueCritic.update` fails with a shape-mismatch error
exactly when `forward(obs)`'s shape and `q_values`' shape are not
broadcast-compatible; matching shapes always succeed.  (Unequal but
broadcast-compatible shapes are silently broadcast, not rejected.) -/
theorem valueCritic_update_shape_error_iff (obs_shape q_shape : List ℕ) :
    (valueCritic_update_loss_shape obs_shape q_shape = none
      ↔ broadcastShapes (valueCritic_forward_shape obs_shape) q_shape = none)
    ∧ (q_shape = valueCritic_forward_shape obs_shape →
        valueCritic_update_loss_shape obs_shape q_shape = some []) := by
  constructor
  · unfold valueCritic_update_loss_shape
    cases broadcastShapes (valueCritic_forward_shape obs_shape) q_shape <;> simp
  · intro h
    subst h
    unfold valueCritic_update_loss_shape broadcastShapes
    rw [broadcastRev_self]
    rfl

theorem valueCritic_update_shape_error_iff_witness :
    ([2] : List ℕ) = valueCritic_forward_shape [2, 3]
    ∧ valueCritic_update_loss_shape [2, 3] [2] = some [] :=
  ⟨by decide, (valueCritic_update_shape_error_iff [2, 3] [2]).2 (by decide)⟩

/-- C9, evaluated at the failing input: for a batch of one observation (obs
shape `[1, d]`, here `d = 3`) `forward` returns shape `[]` — `squeeze()`
with no argument also removes the size-1 batch dimension, yielding a rank-0
scalar instead of the rank-1 one-value-per-observation output the claim
(and the code's own comment) require; with a batch of 2 the claimed shape
`[2]` is produced. -/
theorem valueCritic_forward_shape_batch_one :
    valueCritic_forward_shape [1, 3] = []
    ∧ valueCritic_forward_shape [2, 3] = [2]
    ∧ valueCritic_forward_shape [1, 3] ≠ [1] := by
  refine ⟨by decide, by decide, by decide⟩

/-! ## Gradient clipping -/

/-- Source expression `self.clip_grad_norm or float("inf")`: a falsy
configured value (`None`, modelled `none`, or `0.0`) is replaced by `+∞`.
The result is an extended bound where `none` stands for `+∞`. -/
def effective_max_norm (clip_grad_norm : Option ℚ) : Option ℚ :=
  match clip_grad_norm with
  | none => none
  | some c => if c = 0 then none else some c

/-- Source `torch.nn.utils.clip_grad.clip_grad_norm_(params, max_norm)`:
computes `clip_coef = max_norm / (total_norm + 1e-6)`, clamps it above by 1,
multiplies every gradient by the clamped coefficient, and returns
`total_norm` — the raw, pre-clip gradient norm.  Returned here as
`(scale, reported)`.  For `max_norm = +∞` (`none`) the clamped coefficient
is 1 — gradients untouched — since a gradient norm satisfies
`total_norm ≥ 0 > -1e-6`. -/
def clip_grad_result (max_norm : Option ℚ) (total_norm : ℚ) : ℚ × ℚ :=
  match max_norm with
  | none => (1, total_norm)
  | some c => (min (c / (total_norm + 1/1000000)) 1, total_norm)

/-- The clipping call made in both `update_q` and `update_v`:
`clip_grad_norm_(net.parameters(), self.clip_grad_norm or float("inf"))`. -/
def agent_clip (clip_grad_norm : Option ℚ) (total_norm : ℚ) : ℚ × ℚ :=
  clip_grad_result (effective_max_norm clip_grad_norm) total_norm

/-- C10 counterexample: a configured `clip_grad_norm = -1` is truthy, so it
is passed through as `max_norm = -1` and rescales the gradients (scale `< 1`,
in fact negative) although it is not strictly positive. -/
theorem agent_clip_negative_rescales :
    (agent_clip (some (-1)) 1).1 ≠ 1 ∧ (agent_clip (some (-1)) 1).1 < 0 := by
  constructor <;>
    norm_num [agent_clip, effective_max_norm, clip_grad_result, min_def]

/-- C10 (amended): a falsy configured `clip_grad_norm` (`None` or `0`)
disables clipping entirely — every gradient is scaled by 1 and the reported
metric is the raw gradient norm — and a scale other than 1 can only arise
from a truthy (nonzero) finite configured bound; the reported metric is the
raw norm for every configuration. -/
theorem agent_clip_falsy_disables (cfg : Option ℚ) (total_norm : ℚ) :
    ((cfg = none ∨ cfg = some 0) → agent_clip cfg total_norm = (1, total_norm))
    ∧ ((agent_clip cfg total_norm).1 ≠ 1 → ∃ c : ℚ, cfg = some c ∧ c ≠ 0)
    ∧ (agent_clip cfg total_norm).2 = total_norm := by
  refine ⟨?_, ?_, ?_⟩
  · rintro (rfl | rfl)
    · rfl
    · simp [agent_clip, effective_max_norm, clip_grad_result]
  · intro h
    cases cfg with
    | none => exact absurd rfl h
    | some c =>
      refine ⟨c, rfl, fun hc => ?_⟩
      subst hc
      exact h (by simp [agent_clip, effective_max_norm, clip_grad_result])
  · cases cfg with
    | none => rfl
    | some c =>
      unfold agent_clip effective_max_norm clip_grad_result
      split <;> rfl

theorem agent_clip_falsy_disables_witness :
    ((some 0 : Option ℚ) = none ∨ (some 0 : Option ℚ) = some 0)
    ∧ agent_clip (some 0) 2 = (1, 2) :=
  ⟨Or.inr rfl, (agent_clip_falsy_disables (some 0) 2).1 (Or.inr rfl)⟩
